import Mathlib

/-!
Verification of the GTP-C simulator session engine (src/session.cpp).

The UE session procedure state machine of `UeSession` is embedded shallowly:
the mutable C++ object becomes a `UeState` record, each handler of
session.cpp becomes a Lean function from state to `Option StepOut`.
A `none` result models a crash of the C++ code (a NULL-pointer dereference
or a dereference of a dangling pointer obtained from an out-of-bounds
`std::vector` read); `some` carries the successor state, the list of
datagrams handed to `sendMsg`, the final task-state decision
(`pause()` / `stop()` / neither) and the returned RETVAL.

The scenario's job sequence (class Scenario / Job, whose sources are not
under src/) is modelled from the spec as an immutable list of jobs, each a
Send or Recv step carrying a message template (we keep its message type)
or a Wait step carrying a duration.  Per-job statistics counters live in a
list `jobCtrs` parallel to the job sequence.  The global statistics
singleton (gtp_stats, not under src/) is modelled from the spec as four
counters carried in the state.  The message-category classifier
`gtpGetMsgCategory` (gtp_util, not under src/) is an oracle parameter
`cat`.  The per-peer sequence-number allocator `generateSeqNum` is an
oracle argument `genSeq` supplied at each send step.
-/

namespace GtpSim

/-- Job kinds of a scenario step (spec section 3: Send, Recv, Wait). -/
inductive JobKind where
  | send
  | recv
  | wait
deriving DecidableEq, Repr

/-- Modelled from the spec: one scripted scenario step (class Job of
scenario.hpp, not under src/).  A Send or Recv job carries a GTP message
template, of which the session core only reads the message type; a Wait
job carries a duration in milliseconds. -/
structure Job where
  kind : JobKind
  msgType : Nat := 0
  waitMs : Nat := 0
deriving DecidableEq, Repr

/-- Modelled from the spec: `Job::getGtpMsg()` yields the message template
of a Send or Recv job; a Wait job has none (NULL in the C++, so a use of
the result there is a crash, propagated as `none`). -/
def Job.getGtpMsg (j : Job) : Option Nat :=
  match j.kind with
  | .wait => none
  | _ => some j.msgType

/-- Message categories distinguished by the session core
(`gtpGetMsgCategory`). -/
inductive GtpMsgCat where
  | req
  | rsp
  | other
deriving DecidableEq, Repr

/-- Modelled from the spec: the GTPv2-C Create Session Request message type. -/
def GTPC_MSG_CS_REQ : Nat := 32

/-- Modelled from the spec: the GTPv2-C Create Session Response message type. -/
def GTPC_MSG_CS_RSP : Nat := 33

/-- Modelled from the spec: the decoded view of a GTP message that the
session core reads - its message type and its sequence number. -/
structure GtpMsg where
  msgType : Nat
  seqNumber : Nat
deriving DecidableEq, Repr

/-- A datagram (UdpData_t): the connection id it came over / goes out on,
the peer endpoint, and the encoded message bytes.  The encoder
(section 4.5.5) writes the message type and the procedure sequence number
into the header; those are the only header fields the core later reads,
so the buffer is modelled as that pair. -/
structure UdpData where
  connId : Nat
  peerEp : Nat
  buf : GtpMsg
deriving DecidableEq, Repr

/-- Procedure bookkeeping (m_currUeProc / m_prevUeProc).  The request and
response types and the stored datagram start out unset; `procTask` is the
pointer to the originating job, kept as an index into the job sequence
(`none` models an unset or dangling pointer). -/
structure UeProc where
  connId : Nat := 0
  seqNumber : Nat := 0
  reqType : Option Nat := none
  rspType : Option Nat := none
  sentMsg : Option UdpData := none
  procTask : Option Nat := none
deriving DecidableEq, Repr

/-- Per-job statistics counters (fields m_numSnd .. m_numUnexp of Job). -/
structure JobCtr where
  numSnd : Nat := 0
  numSndRetrans : Nat := 0
  numRcv : Nat := 0
  numRcvRetrans : Nat := 0
  numTimeOut : Nat := 0
  numUnexp : Nat := 0
deriving DecidableEq, Repr

/-- Modelled from the spec: the global statistics counters the session
core updates (gtp_stats, not under src/): sessions created, in-flight,
succeeded, failed. -/
structure Stats where
  sessionsCreated : Nat := 0
  sessions : Nat := 0
  sessionsSucc : Nat := 0
  sessionsFail : Nat := 0
deriving DecidableEq, Repr

/-- Modelled from the spec: the configuration values the session core
consumes (sim_cfg, not under src/). -/
structure Cfg where
  n3req : Nat
  t3time : Nat
  deadCallWait : Nat
  defaultPeer : Nat
deriving DecidableEq, Repr

/-- The mutable per-session state of class UeSession.  `currTask` is the
cached current-job pointer m_currTask, kept as an index; `none` records
that the last UE_SSN_FINISH_TASK macro read m_jobSeq out of bounds and
the pointer dangles (dereferencing it is a crash).  `hasPdn` tells
whether m_pCurrPdn is non-NULL; `pdnPeerEp` is the peer endpoint stored
in the PDN's control tunnel.  The bits of m_bitmask become the two
booleans.  The C++ leaves m_wakeTime and the two procedure records
uninitialised in the constructor; they are modelled with the evidently
intended zero / unset initial values. -/
structure UeState where
  currTaskIndx : Nat
  currTask : Option Nat
  bitWaiting : Bool
  bitComplete : Bool
  retryCnt : Nat
  currReqType : Option Nat
  currProc : UeProc
  prevProc : UeProc
  wakeTime : Nat
  lastRunTime : Nat
  jobCtrs : List JobCtr
  stats : Stats
  hasPdn : Bool
  pdnPeerEp : Nat
deriving DecidableEq, Repr

/-- The task-state decision a handler run leaves behind: the last of
pause() / stop() called during the run, or neither (the task stays
runnable). -/
inductive TaskAct where
  | running
  | paused
  | stopped
deriving DecidableEq, Repr

/-- The RETVAL values the embedded handlers return. -/
inductive Ret where
  | rok
  | rokOver
  | errMaxRetry
deriving DecidableEq, Repr

/-- Result of one handler run: successor state, datagrams passed to
sendMsg in order, task-state decision, and return value. -/
structure StepOut where
  st : UeState
  sends : List UdpData
  act : TaskAct
  ret : Ret
deriving DecidableEq, Repr

/-- Update the statistics counter of the job at index `i` (the C++
increments a counter through a Job pointer; indices used by the model
always come from a valid job position). -/
def bumpCtr (l : List JobCtr) (i : Nat) (f : JobCtr → JobCtr) : List JobCtr :=
  match l[i]? with
  | some c => l.set i (f c)
  | none => l

/-- Fresh zeroed per-job counters for a scenario. -/
def initCtrs (jobSeq : List Job) : List JobCtr :=
  jobSeq.map (fun _ => {})

/-- The UeSession constructor (session.cpp lines 64-86): index 0,
m_currTask = m_jobSeq[0] (dangling when the scenario is empty), clear
bitmask, zero retry count. -/
def initState (jobSeq : List Job) : UeState :=
  { currTaskIndx := 0,
    currTask := if 0 < jobSeq.length then some 0 else none,
    bitWaiting := false,
    bitComplete := false,
    retryCnt := 0,
    currReqType := none,
    currProc := {},
    prevProc := {},
    wakeTime := 0,
    lastRunTime := 0,
    jobCtrs := initCtrs jobSeq,
    stats := {},
    hasPdn := false,
    pdnPeerEp := 0 }

/-- The UE_SSN_FINISH_TASK macro (session.cpp lines 46-51): increment
m_currTaskIndx, then re-read m_jobSeq at the new index into m_currTask.
When the new index equals the sequence length the C++ read is out of
bounds and the cached pointer dangles; that is recorded as `none`. -/
def finishTask (jobSeq : List Job) (s : UeState) : UeState :=
  let i := s.currTaskIndx + 1
  { s with currTaskIndx := i,
           currTask := if i < jobSeq.length then some i else none }

/-- IS_SCN_COMPLETED() (session.cpp line 56). -/
def isScnCompleted (jobSeq : List Job) (s : UeState) : Bool :=
  s.currTaskIndx == jobSeq.length

/-- UeSession::handleCompletedTask (session.cpp lines 962-984): count the
success, decrement in-flight sessions, set the SCN_COMPLETE bit, schedule
the dead-call wake, pause. -/
def handleCompletedTask (cfg : Cfg) (s : UeState) : UeState :=
  { s with
    stats := { s.stats with
      sessionsSucc := s.stats.sessionsSucc + 1
      sessions := s.stats.sessions - 1 }
    bitComplete := true
    wakeTime := s.lastRunTime + cfg.deadCallWait }

/-- UeSession::isExpectedRsp (session.cpp lines 475-491): unguarded read
of m_jobSeq[m_currTaskIndx + 1] (out of bounds yields `none`), then
compare that job's template message type and the stored procedure
sequence number against the incoming response. -/
def isExpectedRsp (jobSeq : List Job) (s : UeState) (rspMsg : GtpMsg) : Option Bool :=
  match jobSeq[s.currTaskIndx + 1]? with
  | none => none
  | some task =>
    match task.getGtpMsg with
    | none => none
    | some t => some (t == rspMsg.msgType && s.currProc.seqNumber == rspMsg.seqNumber)

/-- UeSession::isExpectedReq (session.cpp lines 493-507): compare the
current job's template message type, and require the incoming sequence
number to be strictly greater than the stored one under the plain
integer order. -/
def isExpectedReq (jobSeq : List Job) (s : UeState) (reqMsg : GtpMsg) : Option Bool :=
  match s.currTask with
  | none => none
  | some ti =>
    match jobSeq[ti]? with
    | none => none
    | some j =>
      match j.getGtpMsg with
      | none => none
      | some t => some (t == reqMsg.msgType && decide (s.currProc.seqNumber < reqMsg.seqNumber))

/-- UeSession::isPrevProcRsp (session.cpp lines 509-523). -/
def isPrevProcRsp (s : UeState) (rspMsg : GtpMsg) : Bool :=
  decide (0 < s.currTaskIndx) && s.prevProc.rspType == some rspMsg.msgType &&
    s.prevProc.seqNumber == rspMsg.seqNumber

/-- UeSession::isPrevProcReq (session.cpp lines 525-539). -/
def isPrevProcReq (s : UeState) (reqMsg : GtpMsg) : Bool :=
  decide (0 < s.currTaskIndx) && s.prevProc.reqType == some reqMsg.msgType &&
    s.prevProc.seqNumber == reqMsg.seqNumber

/-- UeSession::handleOutReqMsg (session.cpp lines 242-288): on CS_REQ
create a PDN and count the session; allocate the sequence number; encode
and send over the default socket to the default peer; count the send;
store the datagram; set WAITING_FOR_RSP; arm the T3 wake.  A non-CS_REQ
request with no current PDN dereferences NULL inside encGtpcOutMsg. -/
def handleOutReqMsg (cfg : Cfg) (genSeq : Nat) (s : UeState) (ti : Nat) (t : Nat) :
    Option StepOut :=
  let s1 :=
    if t == GTPC_MSG_CS_REQ then
      { s with stats := { s.stats with
                 sessionsCreated := s.stats.sessionsCreated + 1,
                 sessions := s.stats.sessions + 1 },
               hasPdn := true }
    else s
  if s1.hasPdn then
    let d : UdpData := { connId := 0, peerEp := cfg.defaultPeer,
                         buf := { msgType := t, seqNumber := genSeq } }
    let s2 := { s1 with
      currProc := { s1.currProc with seqNumber := genSeq, sentMsg := some d },
      currReqType := some t,
      jobCtrs := bumpCtr s1.jobCtrs ti (fun c => { c with numSnd := c.numSnd + 1 }),
      bitWaiting := true,
      wakeTime := s.lastRunTime + cfg.t3time }
    some { st := s2, sends := [d], act := .running, ret := .rok }
  else none

/-- UeSession::handleOutReqTimeout (session.cpp lines 297-332): at or
beyond the retry limit drop the stored datagram and report
ERR_MAX_RETRY_EXCEEDED; otherwise resend the stored datagram verbatim
over its stored connection and peer, count the retransmission, bump the
retry count, re-arm the T3 wake and pause. -/
def handleOutReqTimeout (cfg : Cfg) (s : UeState) : Option StepOut :=
  if cfg.n3req ≤ s.retryCnt then
    some { st := { s with currProc := { s.currProc with sentMsg := none } },
           sends := [], act := .running, ret := .errMaxRetry }
  else
    match s.currProc.sentMsg with
    | none => none
    | some d =>
      match s.currTask with
      | none => none
      | some ti =>
        some { st := { s with
                 jobCtrs := bumpCtr s.jobCtrs ti
                   (fun c => { c with numSndRetrans := c.numSndRetrans + 1 }),
                 retryCnt := s.retryCnt + 1,
                 wakeTime := s.lastRunTime + cfg.t3time },
               sends := [d], act := .paused, ret := .rok }

/-- UeSession::handleOutRspMsg (session.cpp lines 334-368): encode the
response with the current PDN (NULL dereference without one), send it
over the stored connection to the tunnel's peer endpoint, count the
send, free the old prev_proc sent message and store the new one together
with the response type, finish the task, and on scenario completion run
handleCompletedTask. -/
def handleOutRspMsg (jobSeq : List Job) (cfg : Cfg) (s : UeState) (ti : Nat) (t : Nat) :
    Option StepOut :=
  if s.hasPdn then
    let d : UdpData := { connId := s.currProc.connId, peerEp := s.pdnPeerEp,
                         buf := { msgType := t, seqNumber := s.currProc.seqNumber } }
    let s1 := { s with
      jobCtrs := bumpCtr s.jobCtrs ti (fun c => { c with numSnd := c.numSnd + 1 }),
      prevProc := { s.prevProc with sentMsg := some d, rspType := some t } }
    let s2 := finishTask jobSeq s1
    if isScnCompleted jobSeq s2 then
      some { st := handleCompletedTask cfg s2, sends := [d], act := .paused, ret := .rok }
    else
      some { st := s2, sends := [d], act := .running, ret := .rok }
  else none

/-- UeSession::handleSend (session.cpp lines 170-240).  While waiting for
a response, delegate to the timeout handler; on ERR_MAX_RETRY_EXCEEDED
count the timeout on the current job, count the session failure, drop
the stored message again and return ROK_OVER.  Otherwise dispatch on the
message category of the current job's template: a request send pauses on
success, a response send calls stop() on success. -/
def handleSend (cat : Nat → GtpMsgCat) (jobSeq : List Job) (cfg : Cfg) (genSeq : Nat)
    (s : UeState) : Option StepOut :=
  if s.bitWaiting then
    match handleOutReqTimeout cfg s with
    | none => none
    | some o =>
      if o.ret == .errMaxRetry then
        match o.st.currTask with
        | none => none
        | some ti =>
          some { st := { o.st with
                   jobCtrs := bumpCtr o.st.jobCtrs ti
                     (fun c => { c with numTimeOut := c.numTimeOut + 1 }),
                   stats := { o.st.stats with
                     sessionsFail := o.st.stats.sessionsFail + 1 },
                   currProc := { o.st.currProc with sentMsg := none } },
                 sends := o.sends, act := o.act, ret := .rokOver }
      else some o
  else
    match s.currTask with
    | none => none
    | some ti =>
      match jobSeq[ti]? with
      | none => none
      | some j =>
        match j.getGtpMsg with
        | none => none
        | some t =>
          if cat t == .req then
            match handleOutReqMsg cfg genSeq s ti t with
            | none => none
            | some o => some { o with act := .paused }
          else
            match handleOutRspMsg jobSeq cfg s ti t with
            | none => none
            | some o => some { o with act := .stopped }

/-- UeSession::handleWait (session.cpp lines 585-596): set the wake time
from the Wait job's duration, finish the task (no completion check here),
pause. -/
def handleWait (jobSeq : List Job) (s : UeState) : Option StepOut :=
  match s.currTask with
  | none => none
  | some ti =>
    match jobSeq[ti]? with
    | none => none
    | some j =>
      let s1 := finishTask jobSeq { s with wakeTime := s.lastRunTime + j.waitMs }
      some { st := s1, sends := [], act := .paused, ret := .rok }

/-- The timer-driven part of UeSession::run (session.cpp lines 146-164):
dispatch on the current job's type; a Recv job does nothing (the session
keeps waiting for input). -/
def runInner (cat : Nat → GtpMsgCat) (jobSeq : List Job) (cfg : Cfg) (genSeq : Nat)
    (s : UeState) : Option StepOut :=
  match s.currTask with
  | none => none
  | some ti =>
    match jobSeq[ti]? with
    | none => none
    | some j =>
      match j.kind with
      | .send => handleSend cat jobSeq cfg genSeq s
      | .wait => handleWait jobSeq s
      | .recv => some { st := s, sends := [], act := .running, ret := .rok }

/-- The tail of the expected-request path of handleIncReqMsg (session.cpp
lines 456-472), starting from the state `s2` in which the PDN is already
in place: record the procedure data, store the peer endpoint in the
tunnel, copy into prev_proc, finish the Recv task and synchronously
re-enter run() so the following job fires in the same pass, returning
ROK regardless of the nested run's return value. -/
def incReqAccept (cat : Nat → GtpMsgCat) (jobSeq : List Job) (cfg : Cfg) (genSeq : Nat)
    (s2 : UeState) (reqMsg : GtpMsg) (data : UdpData) (ti : Nat) : Option StepOut :=
  let s3 := { s2 with
    currProc := { s2.currProc with
      connId := data.connId, seqNumber := reqMsg.seqNumber },
    currReqType := some reqMsg.msgType,
    pdnPeerEp := data.peerEp }
  let s4 := { s3 with
    prevProc := { s3.prevProc with
      connId := data.connId,
      seqNumber := reqMsg.seqNumber,
      reqType := some reqMsg.msgType,
      procTask := some ti } }
  let s5 := finishTask jobSeq s4
  match runInner cat jobSeq cfg genSeq s5 with
  | none => none
  | some o => some { o with ret := .rok }

/-- UeSession::handleIncReqMsg (session.cpp lines 418-473).  An expected
request counts a receive on the current job, on CS_REQ creates the PDN
and counts the session (a non-CS_REQ request with no current PDN
dereferences NULL in decAndStoreGtpcIncMsg), then continues with
`incReqAccept`.  A previous-procedure duplicate counts a receive
retransmission on the originating job and resends the stored response
verbatim.  Anything else counts as unexpected on the current job. -/
def handleIncReqMsg (cat : Nat → GtpMsgCat) (jobSeq : List Job) (cfg : Cfg) (genSeq : Nat)
    (s : UeState) (reqMsg : GtpMsg) (data : UdpData) : Option StepOut :=
  match isExpectedReq jobSeq s reqMsg with
  | none => none
  | some expected =>
    if expected then
      match s.currTask with
      | none => none
      | some ti =>
        let s1 := { s with
          jobCtrs := bumpCtr s.jobCtrs ti (fun c => { c with numRcv := c.numRcv + 1 }) }
        if reqMsg.msgType == GTPC_MSG_CS_REQ then
          incReqAccept cat jobSeq cfg genSeq
            { s1 with stats := { s1.stats with
                        sessionsCreated := s1.stats.sessionsCreated + 1,
                        sessions := s1.stats.sessions + 1 },
                      hasPdn := true }
            reqMsg data ti
        else if s1.hasPdn then
          incReqAccept cat jobSeq cfg genSeq s1 reqMsg data ti
        else none
    else
      if isPrevProcReq s reqMsg then
        match s.prevProc.procTask, s.prevProc.sentMsg with
        | some pi, some d =>
          some { st := { s with
                   jobCtrs := bumpCtr s.jobCtrs pi
                     (fun c => { c with numRcvRetrans := c.numRcvRetrans + 1 }) },
                 sends := [d], act := .running, ret := .rok }
        | _, _ => none
      else
        match s.currTask with
        | none => none
        | some ti =>
          some { st := { s with
                   jobCtrs := bumpCtr s.jobCtrs ti
                     (fun c => { c with numUnexp := c.numUnexp + 1 }) },
                 sends := [], act := .running, ret := .rok }

/-- UeSession::handleIncRspMsg (session.cpp lines 541-583).  An expected
response copies the procedure data into prev_proc, finishes the request
task, counts the receive on the now-current Recv job, stores the tunnel
peer data (NULL dereference without a PDN), clears WAITING_FOR_RSP,
frees the stored request, finishes the Recv task, and on completion runs
handleCompletedTask.  A previous-procedure duplicate counts a receive
retransmission on the originating job.  Anything else counts as
unexpected on the current job. -/
def handleIncRspMsg (jobSeq : List Job) (cfg : Cfg) (s : UeState) (rspMsg : GtpMsg)
    (data : UdpData) : Option StepOut :=
  match isExpectedRsp jobSeq s rspMsg with
  | none => none
  | some expected =>
    if expected then
      let s1 := { s with prevProc := { s.prevProc with
                    connId := data.connId,
                    seqNumber := s.currProc.seqNumber,
                    reqType := s.currReqType,
                    rspType := some rspMsg.msgType,
                    procTask := s.currTask } }
      let s2 := finishTask jobSeq s1
      match s2.currTask with
      | none => none
      | some ti2 =>
        let s3 := { s2 with
          jobCtrs := bumpCtr s2.jobCtrs ti2 (fun c => { c with numRcv := c.numRcv + 1 }) }
        if s3.hasPdn then
          let s4 := { s3 with
            pdnPeerEp := data.peerEp,
            bitWaiting := false,
            currProc := { s3.currProc with sentMsg := none } }
          let s5 := finishTask jobSeq s4
          if isScnCompleted jobSeq s5 then
            some { st := handleCompletedTask cfg s5, sends := [], act := .paused, ret := .rok }
          else
            some { st := s5, sends := [], act := .running, ret := .rok }
        else none
    else
      if isPrevProcRsp s rspMsg then
        match s.prevProc.procTask with
        | none => none
        | some pi =>
          some { st := { s with
                   jobCtrs := bumpCtr s.jobCtrs pi
                     (fun c => { c with numRcvRetrans := c.numRcvRetrans + 1 }) },
                 sends := [], act := .running, ret := .rok }
      else
        match s.currTask with
        | none => none
        | some ti =>
          some { st := { s with
                   jobCtrs := bumpCtr s.jobCtrs ti
                     (fun c => { c with numUnexp := c.numUnexp + 1 }) },
                 sends := [], act := .running, ret := .rok }

/-- UeSession::handleRecv (session.cpp lines 370-404): classify the
datagram by message category and dispatch; afterwards unconditionally
set m_wakeTime = 0. -/
def handleRecv (cat : Nat → GtpMsgCat) (jobSeq : List Job) (cfg : Cfg) (genSeq : Nat)
    (s : UeState) (data : UdpData) : Option StepOut :=
  let gtpMsg := data.buf
  let inner :=
    match cat gtpMsg.msgType with
    | .req => handleIncReqMsg cat jobSeq cfg genSeq s gtpMsg data
    | .rsp => handleIncRspMsg jobSeq cfg s gtpMsg data
    | .other => some { st := s, sends := [], act := .running, ret := .rok }
  match inner with
  | none => none
  | some o => some { o with st := { o.st with wakeTime := 0 } }

/-- UeSession::handleDeadCall (session.cpp lines 816-858): on a timer
wake, end the session once the dead-call wait elapsed; on a datagram,
serve previous-procedure duplicates and drop everything else. -/
def handleDeadCall (cat : Nat → GtpMsgCat) (s : UeState) (arg : Option UdpData) :
    Option StepOut :=
  match arg with
  | none =>
    if s.wakeTime ≤ s.lastRunTime then
      some { st := s, sends := [], act := .running, ret := .rokOver }
    else
      some { st := s, sends := [], act := .running, ret := .rok }
  | some data =>
    let gtpMsg := data.buf
    match cat gtpMsg.msgType with
    | .req =>
      if isPrevProcReq s gtpMsg then
        match s.prevProc.procTask, s.prevProc.sentMsg with
        | some pi, some d =>
          some { st := { s with
                   jobCtrs := bumpCtr s.jobCtrs pi
                     (fun c => { c with numRcvRetrans := c.numRcvRetrans + 1 }) },
                 sends := [d], act := .running, ret := .rok }
        | _, _ => none
      else some { st := s, sends := [], act := .running, ret := .rok }
    | .rsp =>
      if isPrevProcRsp s gtpMsg then
        match s.prevProc.procTask with
        | none => none
        | some pi =>
          some { st := { s with
                   jobCtrs := bumpCtr s.jobCtrs pi
                     (fun c => { c with numRcvRetrans := c.numRcvRetrans + 1 }) },
                 sends := [], act := .running, ret := .rok }
      else some { st := s, sends := [], act := .running, ret := .rok }
    | .other => some { st := s, sends := [], act := .running, ret := .rok }

/-- UeSession::run (session.cpp lines 132-168): stamp the run time; with
the scenario complete delegate to dead-call handling; with a datagram
take the receive path; otherwise dispatch on the current job. -/
def run (cat : Nat → GtpMsgCat) (jobSeq : List Job) (cfg : Cfg) (genSeq : Nat) (now : Nat)
    (s : UeState) (arg : Option UdpData) : Option StepOut :=
  let s1 := { s with lastRunTime := now }
  if s1.bitComplete then
    handleDeadCall cat s1 arg
  else
    match arg with
    | some data => handleRecv cat jobSeq cfg genSeq s1 data
    | none => runInner cat jobSeq cfg genSeq s1

/-- States of a single session reachable from construction through any
interleaving of timer wakes and datagram deliveries that do not crash. -/
inductive Reach (cat : Nat → GtpMsgCat) (jobSeq : List Job) (cfg : Cfg) : UeState → Prop where
  | init : Reach cat jobSeq cfg (initState jobSeq)
  | step {s : UeState} {genSeq now : Nat} {arg : Option UdpData} {o : StepOut} :
      Reach cat jobSeq cfg s → run cat jobSeq cfg genSeq now s arg = some o →
      Reach cat jobSeq cfg o.st

/-- Modelled from the spec: sequence number b is later than a within a
half-window of the 24-bit sequence space (spec section 4.6, serial
number comparison). -/
def seqLater24 (a b : Nat) : Bool :=
  let d := (b % 2 ^ 24 + 2 ^ 24 - a % 2 ^ 24) % 2 ^ 24
  decide (0 < d) && decide (d < 2 ^ 23)

/-- A concrete message-category assignment used for concrete runs:
Create Session Request/Response (32/33) and Modify Bearer
Request/Response (34/35). -/
def catDemo : Nat → GtpMsgCat := fun t =>
  if t == 32 || t == 34 then .req
  else if t == 33 || t == 35 then .rsp
  else .other

/-- A configuration with the spec's example values (T3 = 1000 ms, N3 = 3). -/
def cfg0 : Cfg := { n3req := 3, t3time := 1000, deadCallWait := 60000, defaultPeer := 9 }

/-- An in-bounds list lookup succeeding pins the index below the length. -/
theorem getElem?_some_lt {α : Type} {l : List α} {i : Nat} {a : α} (h : l[i]? = some a) :
    i < l.length := by
  by_contra hn
  rw [List.getElem?_eq_none (Nat.le_of_not_lt hn)] at h
  exact Option.noConfusion h

/-- Coherence invariant of a session state: the index stays within the
job sequence, the cached current-task pointer reflects the index (and
dangles exactly at the end), the completion bit is set only at the end,
and the retry count stays within the configured N3 bound. -/
def Inv (jobSeq : List Job) (cfg : Cfg) (s : UeState) : Prop :=
  s.currTaskIndx ≤ jobSeq.length ∧
  s.currTask = (if s.currTaskIndx < jobSeq.length then some s.currTaskIndx else none) ∧
  (s.bitComplete = true → s.currTaskIndx = jobSeq.length) ∧
  s.retryCnt ≤ cfg.n3req

/-- A valid cached current-task pointer equals the index, in bounds. -/
theorem currTask_bound {jobSeq : List Job} {cfg : Cfg} {s : UeState} {ti : Nat}
    (hinv : Inv jobSeq cfg s) (hti : s.currTask = some ti) :
    ti = s.currTaskIndx ∧ s.currTaskIndx < jobSeq.length := by
  obtain ⟨-, h2, -, -⟩ := hinv
  rw [h2] at hti
  split at hti
  · exact ⟨(Option.some_inj.mp hti).symm, by assumption⟩
  · exact Option.noConfusion hti

/-- The timeout handler preserves the coherence invariant. -/
theorem handleOutReqTimeout_inv {jobSeq : List Job} {cfg : Cfg} {s : UeState} {o : StepOut}
    (h : handleOutReqTimeout cfg s = some o) (hinv : Inv jobSeq cfg s) :
    Inv jobSeq cfg o.st := by
  obtain ⟨h1, h2, h3, h4⟩ := hinv
  unfold handleOutReqTimeout at h
  split at h
  · cases h
    exact ⟨h1, h2, h3, h4⟩
  next hlt =>
    split at h
    · exact Option.noConfusion h
    next d hd =>
      split at h
      · exact Option.noConfusion h
      next ti hti =>
        cases h
        exact ⟨h1, h2, h3, by simpa using Nat.succ_le_of_lt (Nat.lt_of_not_le hlt)⟩

/-- The outbound-request handler preserves the coherence invariant. -/
theorem handleOutReqMsg_inv {jobSeq : List Job} {cfg : Cfg} {genSeq : Nat} {s : UeState}
    {ti t : Nat} {o : StepOut}
    (h : handleOutReqMsg cfg genSeq s ti t = some o) (hinv : Inv jobSeq cfg s) :
    Inv jobSeq cfg o.st := by
  obtain ⟨h1, h2, h3, h4⟩ := hinv
  unfold handleOutReqMsg at h
  split at h
  all_goals
    simp only [] at h
    split at h
    · cases h
      exact ⟨h1, h2, h3, h4⟩
    · exact Option.noConfusion h

/-- Finishing the current task from an in-bounds, not-completed state
re-establishes the coherence invariant. -/
theorem finishTask_inv {jobSeq : List Job} {cfg : Cfg} {s : UeState}
    (hlt : s.currTaskIndx < jobSeq.length) (hc : s.bitComplete = false)
    (hretry : s.retryCnt ≤ cfg.n3req) :
    Inv jobSeq cfg (finishTask jobSeq s) := by
  refine ⟨hlt, rfl, ?_, hretry⟩
  intro hcc
  simp only [finishTask] at hcc
  rw [hc] at hcc
  exact Bool.noConfusion hcc

/-- handleCompletedTask, run at the end of the job sequence, preserves
the coherence invariant (and establishes the completion conjunct). -/
theorem handleCompletedTask_inv {jobSeq : List Job} {cfg : Cfg} {s : UeState}
    (hend : s.currTaskIndx = jobSeq.length)
    (h2 : s.currTask = (if s.currTaskIndx < jobSeq.length then some s.currTaskIndx else none))
    (hretry : s.retryCnt ≤ cfg.n3req) :
    Inv jobSeq cfg (handleCompletedTask cfg s) := by
  exact ⟨Nat.le_of_eq hend, h2, fun _ => hend, hretry⟩

/-- The outbound-response handler preserves the coherence invariant when
the current index is in bounds and the scenario is not complete. -/
theorem handleOutRspMsg_inv {jobSeq : List Job} {cfg : Cfg} {s : UeState}
    {ti t : Nat} {o : StepOut}
    (h : handleOutRspMsg jobSeq cfg s ti t = some o)
    (hlt : s.currTaskIndx < jobSeq.length) (hc : s.bitComplete = false)
    (hretry : s.retryCnt ≤ cfg.n3req) :
    Inv jobSeq cfg o.st := by
  unfold handleOutRspMsg at h
  split at h
  · simp only [] at h
    split at h
    next hdone =>
      cases h
      refine handleCompletedTask_inv ?_ rfl hretry
      simpa [isScnCompleted, finishTask] using hdone
    next hdone =>
      cases h
      exact finishTask_inv hlt hc hretry
  · exact Option.noConfusion h

/-- The wait handler preserves the coherence invariant. -/
theorem handleWait_inv {jobSeq : List Job} {cfg : Cfg} {s : UeState} {o : StepOut}
    (h : handleWait jobSeq s = some o) (hc : s.bitComplete = false)
    (hinv : Inv jobSeq cfg s) : Inv jobSeq cfg o.st := by
  unfold handleWait at h
  split at h
  · exact Option.noConfusion h
  next ti hti =>
    obtain ⟨-, hlt⟩ := currTask_bound hinv hti
    split at h
    · exact Option.noConfusion h
    · cases h
      exact finishTask_inv hlt hc hinv.2.2.2

/-- The send dispatcher preserves the coherence invariant. -/
theorem handleSend_inv {cat : Nat → GtpMsgCat} {jobSeq : List Job} {cfg : Cfg}
    {genSeq : Nat} {s : UeState} {o : StepOut}
    (h : handleSend cat jobSeq cfg genSeq s = some o) (hc : s.bitComplete = false)
    (hinv : Inv jobSeq cfg s) : Inv jobSeq cfg o.st := by
  unfold handleSend at h
  split at h
  · -- waiting-for-response branch
    split at h
    · exact Option.noConfusion h
    next o1 ho1 =>
      have hinv1 := handleOutReqTimeout_inv ho1 hinv
      split at h
      · split at h
        · exact Option.noConfusion h
        · cases h
          exact ⟨hinv1.1, hinv1.2.1, hinv1.2.2.1, hinv1.2.2.2⟩
      · cases h
        exact hinv1
  · -- fresh send branch
    split at h
    · exact Option.noConfusion h
    next ti hti =>
      obtain ⟨hti_eq, hlt⟩ := currTask_bound hinv hti
      split at h
      · exact Option.noConfusion h
      · split at h
        · exact Option.noConfusion h
        · split at h
          · -- request category
            split at h
            · exact Option.noConfusion h
            next o1 ho1 =>
              cases h
              have := handleOutReqMsg_inv ho1 hinv
              exact ⟨this.1, this.2.1, this.2.2.1, this.2.2.2⟩
          · -- response category
            split at h
            · exact Option.noConfusion h
            next o1 ho1 =>
              cases h
              have := handleOutRspMsg_inv ho1 hlt hc hinv.2.2.2
              exact ⟨this.1, this.2.1, this.2.2.1, this.2.2.2⟩

/-- The timer-driven dispatcher preserves the coherence invariant. -/
theorem runInner_inv {cat : Nat → GtpMsgCat} {jobSeq : List Job} {cfg : Cfg}
    {genSeq : Nat} {s : UeState} {o : StepOut}
    (h : runInner cat jobSeq cfg genSeq s = some o) (hc : s.bitComplete = false)
    (hinv : Inv jobSeq cfg s) : Inv jobSeq cfg o.st := by
  unfold runInner at h
  split at h
  · exact Option.noConfusion h
  · split at h
    · exact Option.noConfusion h
    · split at h
      · exact handleSend_inv h hc hinv
      · exact handleWait_inv h hc hinv
      · cases h
        exact hinv

/-- The accepted-request tail preserves the coherence invariant for any
starting state whose index is in bounds. -/
theorem incReqAccept_inv {cat : Nat → GtpMsgCat} {jobSeq : List Job} {cfg : Cfg}
    {genSeq : Nat} {s2 : UeState} {reqMsg : GtpMsg} {data : UdpData} {ti : Nat} {o : StepOut}
    (h : incReqAccept cat jobSeq cfg genSeq s2 reqMsg data ti = some o)
    (hlt : s2.currTaskIndx < jobSeq.length) (hc : s2.bitComplete = false)
    (hr : s2.retryCnt ≤ cfg.n3req) : Inv jobSeq cfg o.st := by
  unfold incReqAccept at h
  simp only [] at h
  split at h
  · exact Option.noConfusion h
  next o1 ho1 =>
    cases h
    have hrec := runInner_inv ho1 hc (finishTask_inv hlt hc hr)
    exact hrec

/-- The inbound-request handler preserves the coherence invariant. -/
theorem handleIncReqMsg_inv {cat : Nat → GtpMsgCat} {jobSeq : List Job} {cfg : Cfg}
    {genSeq : Nat} {s : UeState} {reqMsg : GtpMsg} {data : UdpData} {o : StepOut}
    (h : handleIncReqMsg cat jobSeq cfg genSeq s reqMsg data = some o)
    (hc : s.bitComplete = false) (hinv : Inv jobSeq cfg s) : Inv jobSeq cfg o.st := by
  unfold handleIncReqMsg at h
  split at h
  · exact Option.noConfusion h
  · split at h
    · -- expected request
      split at h
      · exact Option.noConfusion h
      next ti hti =>
        obtain ⟨-, hlt⟩ := currTask_bound hinv hti
        simp only [] at h
        split at h
        · exact incReqAccept_inv h hlt hc hinv.2.2.2
        · split at h
          · exact incReqAccept_inv h hlt hc hinv.2.2.2
          · exact Option.noConfusion h
    · -- duplicate or unexpected request
      split at h
      · split at h
        next pi d hpt hpm =>
          cases h
          exact ⟨hinv.1, hinv.2.1, hinv.2.2.1, hinv.2.2.2⟩
        · exact Option.noConfusion h
      · split at h
        · exact Option.noConfusion h
        next ti hti =>
          cases h
          exact ⟨hinv.1, hinv.2.1, hinv.2.2.1, hinv.2.2.2⟩

/-- The inbound-response handler preserves the coherence invariant. -/
theorem handleIncRspMsg_inv {jobSeq : List Job} {cfg : Cfg} {s : UeState}
    {rspMsg : GtpMsg} {data : UdpData} {o : StepOut}
    (h : handleIncRspMsg jobSeq cfg s rspMsg data = some o)
    (hc : s.bitComplete = false) (hinv : Inv jobSeq cfg s) : Inv jobSeq cfg o.st := by
  unfold handleIncRspMsg at h
  split at h
  · exact Option.noConfusion h
  next b hexp =>
    split at h
    · -- expected response
      have hlt1 : s.currTaskIndx + 1 < jobSeq.length := by
        unfold isExpectedRsp at hexp
        split at hexp
        · exact Option.noConfusion hexp
        next task htask => exact getElem?_some_lt htask
      simp only [] at h
      split at h
      · exact Option.noConfusion h
      next ti2 hti2 =>
        split at h
        · split at h
          next hdone =>
            cases h
            refine handleCompletedTask_inv ?_ rfl hinv.2.2.2
            simpa [isScnCompleted, finishTask] using hdone
          next hdone =>
            cases h
            exact finishTask_inv (by simpa [finishTask] using hlt1) hc hinv.2.2.2
        · exact Option.noConfusion h
    · -- duplicate or unexpected response
      split at h
      · split at h
        · exact Option.noConfusion h
        next pi hpt =>
          cases h
          exact ⟨hinv.1, hinv.2.1, hinv.2.2.1, hinv.2.2.2⟩
      · split at h
        · exact Option.noConfusion h
        next ti hti =>
          cases h
          exact ⟨hinv.1, hinv.2.1, hinv.2.2.1, hinv.2.2.2⟩

/-- The receive dispatcher preserves the coherence invariant. -/
theorem handleRecv_inv {cat : Nat → GtpMsgCat} {jobSeq : List Job} {cfg : Cfg}
    {genSeq : Nat} {s : UeState} {data : UdpData} {o : StepOut}
    (h : handleRecv cat jobSeq cfg genSeq s data = some o)
    (hc : s.bitComplete = false) (hinv : Inv jobSeq cfg s) : Inv jobSeq cfg o.st := by
  unfold handleRecv at h
  simp only [] at h
  split at h
  · exact Option.noConfusion h
  next o1 ho1 =>
    cases h
    have : Inv jobSeq cfg o1.st := by
      split at ho1
      · exact handleIncReqMsg_inv ho1 hc hinv
      · exact handleIncRspMsg_inv ho1 hc hinv
      · cases ho1
        exact hinv
    exact ⟨this.1, this.2.1, this.2.2.1, this.2.2.2⟩

/-- The dead-call handler preserves the coherence invariant. -/
theorem handleDeadCall_inv {cat : Nat → GtpMsgCat} {jobSeq : List Job} {cfg : Cfg}
    {s : UeState} {arg : Option UdpData} {o : StepOut}
    (h : handleDeadCall cat s arg = some o) (hinv : Inv jobSeq cfg s) :
    Inv jobSeq cfg o.st := by
  unfold handleDeadCall at h
  split at h
  · split at h
    · cases h
      exact hinv
    · cases h
      exact hinv
  · simp only [] at h
    split at h
    · split at h
      · split at h
        next pi d hpt hpm =>
          cases h
          exact ⟨hinv.1, hinv.2.1, hinv.2.2.1, hinv.2.2.2⟩
        · exact Option.noConfusion h
      · cases h
        exact hinv
    · split at h
      · split at h
        · exact Option.noConfusion h
        next pi hpt =>
          cases h
          exact ⟨hinv.1, hinv.2.1, hinv.2.2.1, hinv.2.2.2⟩
      · cases h
        exact hinv
    · cases h
      exact hinv

/-- One run of the session task preserves the coherence invariant. -/
theorem run_inv {cat : Nat → GtpMsgCat} {jobSeq : List Job} {cfg : Cfg}
    {genSeq now : Nat} {s : UeState} {arg : Option UdpData} {o : StepOut}
    (h : run cat jobSeq cfg genSeq now s arg = some o) (hinv : Inv jobSeq cfg s) :
    Inv jobSeq cfg o.st := by
  unfold run at h
  simp only [] at h
  have hinv1 : Inv jobSeq cfg { s with lastRunTime := now } :=
    ⟨hinv.1, hinv.2.1, hinv.2.2.1, hinv.2.2.2⟩
  split at h
  · exact handleDeadCall_inv h hinv1
  next hnc =>
    split at h
    · exact handleRecv_inv h (Bool.not_eq_true _ ▸ Bool.of_not_eq_true hnc) hinv1
    · exact runInner_inv h (Bool.of_not_eq_true hnc) hinv1

/-- Every reachable session state satisfies the coherence invariant. -/
theorem reach_inv {cat : Nat → GtpMsgCat} {jobSeq : List Job} {cfg : Cfg} {s : UeState}
    (h : Reach cat jobSeq cfg s) : Inv jobSeq cfg s := by
  induction h with
  | init => exact ⟨Nat.zero_le _, rfl, by simp [initState], Nat.zero_le _⟩
  | step hs hrun ih => exact run_inv hrun ih

/-! Concrete scenarios and inputs used in the witnesses and
counterexamples below. -/

/-- The outbound scenario of spec S1: Send CS_REQ then Recv CS_RSP. -/
def jobSeqS1 : List Job := [{ kind := .send, msgType := 32 }, { kind := .recv, msgType := 33 }]

/-- The inbound scenario of spec S4: Recv CS_REQ, Send CS_RSP, Recv
MB_REQ, Send MB_RSP. -/
def jobSeqS4 : List Job := [{ kind := .recv, msgType := 32 }, { kind := .send, msgType := 33 },
  { kind := .recv, msgType := 34 }, { kind := .send, msgType := 35 }]

/-- A scenario consisting of a single Wait step. -/
def jobSeqW : List Job := [{ kind := .wait, waitMs := 5 }]

/-- An inbound scenario ending in a Wait step: Recv CS_REQ, Send CS_RSP,
Wait. -/
def jobSeqRW : List Job := [{ kind := .recv, msgType := 32 }, { kind := .send, msgType := 33 },
  { kind := .wait, waitMs := 100 }]

/-- The two-job inbound scenario: Recv CS_REQ then Send CS_RSP. -/
def jobSeqIn2 : List Job := [{ kind := .recv, msgType := 32 }, { kind := .send, msgType := 33 }]

/-- An inbound CS_REQ datagram with sequence number 10. -/
def reqData10 : UdpData := { connId := 2, peerEp := 7, buf := { msgType := 32, seqNumber := 10 } }

/-- An inbound MB_RSP datagram with sequence number 10. -/
def rspData35 : UdpData := { connId := 2, peerEp := 7, buf := { msgType := 35, seqNumber := 10 } }

/-- A stored request datagram used in the retransmission witness. -/
def dC2 : UdpData := { connId := 0, peerEp := 9, buf := { msgType := 32, seqNumber := 1 } }

/-- A session of the S1 scenario waiting for the CS_RSP with the retry
limit already reached. -/
def sC2 : UeState := { initState jobSeqS1 with
  bitWaiting := true
  retryCnt := 3
  currProc := { seqNumber := 1, sentMsg := some dC2 } }

/-- C7: the claim `cur_idx = job_seq.len iff SCENARIO_COMPLETE` fails on
the code: handleWait advances the index without the completion check, so
finishing a trailing Wait job reaches a state with cur_idx = len while
the SCENARIO_COMPLETE flag stays clear. -/
theorem C7_counterexample :
  ∃ s : UeState, Reach catDemo jobSeqW cfg0 s ∧
    s.currTaskIndx = jobSeqW.length ∧ s.bitComplete = false := by
  have hrun : run catDemo jobSeqW cfg0 0 0 (initState jobSeqW) none = some
      { st := { currTaskIndx := 1, currTask := none, bitWaiting := false,
                bitComplete := false, retryCnt := 0, currReqType := none,
                currProc := {}, prevProc := {}, wakeTime := 5, lastRunTime := 0,
                jobCtrs := [{}], stats := {}, hasPdn := false, pdnPeerEp := 0 },
        sends := [], act := .paused, ret := .rok } := by decide
  exact ⟨_, Reach.step Reach.init hrun, by decide, by decide⟩

/-- C7 (amended): for every reachable session state, cur_idx is at most
job_seq.len, and SCENARIO_COMPLETE implies cur_idx = job_seq.len.  The
converse direction of the original claim fails (see the
counterexample). -/
theorem C7_thm (cat : Nat → GtpMsgCat) (jobSeq : List Job) (cfg : Cfg) (s : UeState)
    (h : Reach cat jobSeq cfg s) :
    s.currTaskIndx ≤ jobSeq.length ∧
      (s.bitComplete = true → s.currTaskIndx = jobSeq.length) :=
  ⟨(reach_inv h).1, (reach_inv h).2.2.1⟩

/-- Witness for C7 at the freshly constructed S1 session. -/
theorem C7_witness :
    (initState jobSeqS1).currTaskIndx ≤ jobSeqS1.length ∧
      ((initState jobSeqS1).bitComplete = true →
        (initState jobSeqS1).currTaskIndx = jobSeqS1.length) :=
  C7_thm catDemo jobSeqS1 cfg0 (initState jobSeqS1) Reach.init

/-- C2: while a session waits for a response, a T3 expiry at or beyond
the N3 limit counts the timeout on the current job, counts the session
failure, frees the stored request datagram and ends the session
(ROK_OVER); below the limit the stored datagram is resent verbatim over
its stored connection id and peer, the retransmission and retry counters
grow by one and the wake time is re-armed to last_run + T3; and the
retry count of any reachable state never exceeds N3 + 1 (indeed never
exceeds N3). -/
theorem C2_thm (cat : Nat → GtpMsgCat) (jobSeq : List Job) (cfg : Cfg) (genSeq : Nat)
    (s s2 : UeState) (ti : Nat) (d : UdpData)
    (hw : s.bitWaiting = true) (ht : s.currTask = some ti)
    (hr : Reach cat jobSeq cfg s2) :
    (cfg.n3req ≤ s.retryCnt →
      handleSend cat jobSeq cfg genSeq s =
        some { st := { s with
                 currProc := { s.currProc with sentMsg := none }
                 jobCtrs := bumpCtr s.jobCtrs ti
                   (fun c => { c with numTimeOut := c.numTimeOut + 1 })
                 stats := { s.stats with sessionsFail := s.stats.sessionsFail + 1 } }
               sends := [], act := .running, ret := .rokOver }) ∧
    (s.retryCnt < cfg.n3req → s.currProc.sentMsg = some d →
      handleSend cat jobSeq cfg genSeq s =
        some { st := { s with
                 jobCtrs := bumpCtr s.jobCtrs ti
                   (fun c => { c with numSndRetrans := c.numSndRetrans + 1 })
                 retryCnt := s.retryCnt + 1
                 wakeTime := s.lastRunTime + cfg.t3time }
               sends := [d], act := .paused, ret := .rok }) ∧
    s2.retryCnt ≤ cfg.n3req + 1 := by
  refine ⟨?_, ?_, Nat.le_succ_of_le (reach_inv hr).2.2.2⟩
  · intro hge
    simp [handleSend, handleOutReqTimeout, hw, hge, ht]
  · intro hlt hd
    simp [handleSend, handleOutReqTimeout, hw, Nat.not_le.mpr hlt, hd, ht]

/-- Witness for C2 at a concrete waiting S1 session with the retry limit
reached. -/
theorem C2_witness :
    handleSend catDemo jobSeqS1 cfg0 1 sC2 =
      some { st := { sC2 with
               currProc := { sC2.currProc with sentMsg := none }
               jobCtrs := bumpCtr sC2.jobCtrs 0
                 (fun c => { c with numTimeOut := c.numTimeOut + 1 })
               stats := { sC2.stats with sessionsFail := sC2.stats.sessionsFail + 1 } }
             sends := [], act := .running, ret := .rokOver } :=
  (C2_thm catDemo jobSeqS1 cfg0 1 sC2 (initState jobSeqS1) 0 dC2 rfl rfl
    Reach.init).1 (by decide)

/-- A configuration with n3 = 0, failing the session on the first T3
expiry. -/
def cfgN0 : Cfg := { cfg0 with n3req := 0 }

/-- C8: the accounting identity sessions_created = sessions_succ +
sessions_fail + sessions is broken by the failure path, which increments
SESSIONS_FAIL without decrementing SESSIONS (handleCompletedTask does
decrement it on success).  Running the S1 scenario with n3 = 0 and
letting T3 expire leaves created = 1, succ = 0, fail = 1, sessions = 1,
and 1 is not 0 + 1 + 1. -/
theorem C8_thm :
  ((run catDemo jobSeqS1 cfgN0 1 0 (initState jobSeqS1) none).bind
      (fun o => run catDemo jobSeqS1 cfgN0 1 1000 o.st none)).map
      (fun o => o.st.stats) =
    some { sessionsCreated := 1, sessions := 1, sessionsSucc := 0, sessionsFail := 1 } ∧
  ¬ (1 : Nat) = 0 + 1 + 1 :=
  ⟨by decide, by decide⟩

/-- C9: the completing advance is out of bounds.  Driving the two-job
inbound scenario to completion by delivering the expected CS_REQ makes
the final UE_SSN_FINISH_TASK in handleOutRspMsg increment the index to
the sequence length and re-read the job sequence there: the lookup
yields nothing (the C++ reads m_jobSeq[size], out of bounds, and caches
a dangling pointer), contradicting the claim that every advance's
re-read is in bounds. -/
theorem C9_thm :
  (run catDemo jobSeqIn2 cfg0 5 0 (initState jobSeqIn2) (some reqData10)).map
      (fun o => (o.st.currTaskIndx, o.st.currTask,
                 jobSeqIn2[o.st.currTaskIndx]?, o.st.bitComplete)) =
    some (2, none, none, true) := by decide

/-- C10: a session with its scenario not complete can process an inbound
response with cur_idx + 1 = job_seq.len: after the request/response
exchange of the Wait-terminated scenario the session sits at the Wait
job (index 2 of 3, not complete); a response arriving there makes
isExpectedRsp read job_seq[3], whose lookup yields none (the C++ reads
one past the end), and the receive path crashes. -/
theorem C10_thm :
  (run catDemo jobSeqRW cfg0 5 0 (initState jobSeqRW) (some reqData10)).map
      (fun o => (o.st.currTaskIndx, o.st.bitComplete,
        isExpectedRsp jobSeqRW o.st rspData35.buf,
        run catDemo jobSeqRW cfg0 6 500 o.st (some rspData35))) =
    some (2, false, none, none) ∧
  jobSeqRW.length = 3 :=
  ⟨by decide, by decide⟩

/-- C1 counterexample: in the S4 scenario, after the expected CS_REQ is
received and the CS_RSP response is sent, the scenario is not complete
(cur_idx = 2 of 4), yet the run leaves the task stopped (stop() at
session.cpp line 234) instead of paused-and-schedulable with
wake_ms = 0 as the claim states. -/
theorem C1_counterexample :
  (run catDemo jobSeqS4 cfg0 5 0 (initState jobSeqS4) (some reqData10)).map
      (fun o => (o.act, o.st.currTaskIndx, o.st.bitComplete)) =
    some (.stopped, 2, false) := by decide

/-- C1 (amended): a successful response send counts the send on the
current job, frees the old prev_proc.sent_msg and stores the freshly
sent response together with its type into prev_proc (the remaining
cur_proc fields were already copied when the request was received),
advances cur_idx, and completes the scenario when the end is reached;
but whether or not the scenario completed, handleSend then stops the
task via stop() - it does not pause with wake_ms = 0. -/
theorem C1_thm (cat : Nat → GtpMsgCat) (jobSeq : List Job) (cfg : Cfg) (genSeq : Nat)
    (s : UeState) (ti t : Nat) (j : Job) (d : UdpData) (s1 : UeState)
    (hw : s.bitWaiting = false) (ht : s.currTask = some ti)
    (hj : jobSeq[ti]? = some j) (hg : j.getGtpMsg = some t)
    (hcat : cat t = .rsp) (hpdn : s.hasPdn = true)
    (hd : d = { connId := s.currProc.connId, peerEp := s.pdnPeerEp,
                buf := { msgType := t, seqNumber := s.currProc.seqNumber } })
    (hs1 : s1 = { s with
       jobCtrs := bumpCtr s.jobCtrs ti (fun c => { c with numSnd := c.numSnd + 1 })
       prevProc := { s.prevProc with sentMsg := some d, rspType := some t } }) :
    handleSend cat jobSeq cfg genSeq s =
      some { st := if s.currTaskIndx + 1 = jobSeq.length
                   then handleCompletedTask cfg (finishTask jobSeq s1)
                   else finishTask jobSeq s1
             sends := [d], act := .stopped, ret := .rok } := by
  have hcat2 : (cat t == GtpMsgCat.req) = false := by simp [hcat]
  subst hd
  subst hs1
  by_cases hdone : s.currTaskIndx + 1 = jobSeq.length <;>
    simp [handleSend, handleOutRspMsg, hw, ht, hj, hg, hcat2, hpdn,
      isScnCompleted, finishTask, hdone]

/-- The S4 session about to send the CS_RSP response (request already
received). -/
def sC1 : UeState := { initState jobSeqS4 with
  currTaskIndx := 1
  currTask := some 1
  currProc := { connId := 3, seqNumber := 10 }
  hasPdn := true
  pdnPeerEp := 7 }

/-- The CS_RSP datagram the session sends from `sC1`. -/
def dC1 : UdpData := { connId := 3, peerEp := 7, buf := { msgType := 33, seqNumber := 10 } }

/-- The state `sC1` after counting the send and storing the response into
prev_proc. -/
def sC1x : UeState := { sC1 with
  jobCtrs := bumpCtr sC1.jobCtrs 1 (fun c => { c with numSnd := c.numSnd + 1 })
  prevProc := { sC1.prevProc with sentMsg := some dC1, rspType := some 33 } }

/-- Witness for C1 at the concrete S4 response-send state: the scenario
is not complete afterwards (index 2 of 4) and the task ends stopped. -/
theorem C1_witness :
    handleSend catDemo jobSeqS4 cfg0 1 sC1 =
      some { st := if sC1.currTaskIndx + 1 = jobSeqS4.length
                   then handleCompletedTask cfg0 (finishTask jobSeqS4 sC1x)
                   else finishTask jobSeqS4 sC1x
             sends := [dC1], act := .stopped, ret := .rok } :=
  C1_thm catDemo jobSeqS4 cfg0 1 sC1 1 33 { kind := .send, msgType := 33 } dC1 sC1x
    (by decide) (by decide) (by decide) (by decide) (by decide) (by decide)
    (by decide) (by decide)

/-- C3 counterexample: isExpectedRsp never checks that the job at
cur_idx + 1 is a Recv.  In a state of the two-job inbound scenario
(Recv CS_REQ, Send CS_RSP) still at index 0, an incoming CS_RSP whose
sequence number matches is accepted as the expected response although
the job at cur_idx + 1 is a Send - and the handler then advances the
session by two jobs. -/
theorem C3_counterexample :
  isExpectedRsp jobSeqIn2
      { initState jobSeqIn2 with currProc := { seqNumber := 7 }, hasPdn := true }
      { msgType := 33, seqNumber := 7 } = some true ∧
  (jobSeqIn2[1]?).map Job.kind = some JobKind.send ∧
  (handleIncRspMsg jobSeqIn2 cfg0
      { initState jobSeqIn2 with currProc := { seqNumber := 7 }, hasPdn := true }
      { msgType := 33, seqNumber := 7 }
      { connId := 4, peerEp := 7, buf := { msgType := 33, seqNumber := 7 } }).map
      (fun o => o.st.currTaskIndx) = some 2 :=
  ⟨by decide, by decide, by decide⟩

/-- C3 (amended): an inbound response is accepted as expected iff the
job at cur_idx + 1 carries a message template of the matching type (its
Send/Recv kind is not checked) and the incoming sequence number equals
cur_proc.seq_number; on acceptance WAITING_FOR_RSP is cleared,
cur_proc.sent_msg is freed, the receive is counted on the job at
cur_idx + 1 and cur_idx advances past both the paired Send and the
Recv; hence the accepted response's sequence number equals the stored
request's. -/
theorem C3_thm (jobSeq : List Job) (cfg : Cfg) (s : UeState) (m : GtpMsg) (data : UdpData)
    (s4 : UeState)
    (hacc : isExpectedRsp jobSeq s m = some true) (hpdn : s.hasPdn = true)
    (hs4 : s4 = { s with
       prevProc := { s.prevProc with
         connId := data.connId
         seqNumber := s.currProc.seqNumber
         reqType := s.currReqType
         rspType := some m.msgType
         procTask := s.currTask }
       currTaskIndx := s.currTaskIndx + 1
       currTask := some (s.currTaskIndx + 1)
       jobCtrs := bumpCtr s.jobCtrs (s.currTaskIndx + 1)
         (fun c => { c with numRcv := c.numRcv + 1 })
       pdnPeerEp := data.peerEp
       bitWaiting := false
       currProc := { s.currProc with sentMsg := none } }) :
    (isExpectedRsp jobSeq s m = some true ↔
      ∃ jb, jobSeq[s.currTaskIndx + 1]? = some jb ∧ jb.getGtpMsg = some m.msgType ∧
        s.currProc.seqNumber = m.seqNumber) ∧
    m.seqNumber = s.currProc.seqNumber ∧
    handleIncRspMsg jobSeq cfg s m data =
      some { st := if s.currTaskIndx + 2 = jobSeq.length
                   then handleCompletedTask cfg (finishTask jobSeq s4)
                   else finishTask jobSeq s4
             sends := []
             act := if s.currTaskIndx + 2 = jobSeq.length then .paused else .running
             ret := .rok } := by
  obtain ⟨task, h1, tt, h2, h3⟩ :
      ∃ task, jobSeq[s.currTaskIndx + 1]? = some task ∧
        ∃ tt, task.getGtpMsg = some tt ∧
          (tt == m.msgType && s.currProc.seqNumber == m.seqNumber) = true := by
    unfold isExpectedRsp at hacc
    split at hacc
    · exact Option.noConfusion hacc
    next task h1 =>
      split at hacc
      · exact Option.noConfusion hacc
      next tt h2 =>
        exact ⟨task, h1, tt, h2, Option.some_inj.mp hacc⟩
  have h3a : tt = m.msgType := by
    have h4 := (Bool.and_eq_true _ _).mp h3
    simpa using h4.1
  have h3b : s.currProc.seqNumber = m.seqNumber := by
    have h4 := (Bool.and_eq_true _ _).mp h3
    simpa using h4.2
  have hlt : s.currTaskIndx + 1 < jobSeq.length := getElem?_some_lt h1
  refine ⟨?_, h3b.symm, ?_⟩
  · constructor
    · intro _
      exact ⟨task, h1, h3a ▸ h2, h3b⟩
    · intro _
      exact hacc
  · subst hs4
    by_cases hdone : s.currTaskIndx + 2 = jobSeq.length <;>
      simp [handleIncRspMsg, hacc, finishTask, hlt, hpdn, isScnCompleted, hdone]

/-- The S1 session waiting for the CS_RSP with sequence number 1. -/
def sC3w : UeState := { initState jobSeqS1 with
  bitWaiting := true
  currProc := { seqNumber := 1, sentMsg := some dC2 }
  currReqType := some 32
  hasPdn := true
  pdnPeerEp := 7 }

/-- The expected CS_RSP for `sC3w`. -/
def mC3 : GtpMsg := { msgType := 33, seqNumber := 1 }

/-- The datagram carrying `mC3`. -/
def dC3 : UdpData := { connId := 4, peerEp := 7, buf := mC3 }

/-- The state `sC3w` after accepting `mC3`, before the final advance. -/
def sC3x : UeState := { sC3w with
  prevProc := { sC3w.prevProc with
    connId := dC3.connId
    seqNumber := sC3w.currProc.seqNumber
    reqType := sC3w.currReqType
    rspType := some mC3.msgType
    procTask := sC3w.currTask }
  currTaskIndx := sC3w.currTaskIndx + 1
  currTask := some (sC3w.currTaskIndx + 1)
  jobCtrs := bumpCtr sC3w.jobCtrs (sC3w.currTaskIndx + 1)
    (fun c => { c with numRcv := c.numRcv + 1 })
  pdnPeerEp := dC3.peerEp
  bitWaiting := false
  currProc := { sC3w.currProc with sentMsg := none } }

/-- Witness for C3 at the concrete waiting S1 session. -/
theorem C3_witness :
    (isExpectedRsp jobSeqS1 sC3w mC3 = some true ↔
      ∃ jb, jobSeqS1[sC3w.currTaskIndx + 1]? = some jb ∧
        jb.getGtpMsg = some mC3.msgType ∧
        sC3w.currProc.seqNumber = mC3.seqNumber) ∧
    mC3.seqNumber = sC3w.currProc.seqNumber ∧
    handleIncRspMsg jobSeqS1 cfg0 sC3w mC3 dC3 =
      some { st := if sC3w.currTaskIndx + 2 = jobSeqS1.length
                   then handleCompletedTask cfg0 (finishTask jobSeqS1 sC3x)
                   else finishTask jobSeqS1 sC3x
             sends := []
             act := if sC3w.currTaskIndx + 2 = jobSeqS1.length then .paused else .running
             ret := .rok } :=
  C3_thm jobSeqS1 cfg0 sC3w mC3 dC3 sC3x (by decide) (by decide) (by decide)

/-- C4 counterexample: isExpectedReq checks the template type of the
current job without checking that the job is a Recv, and compares
sequence numbers with the plain integer order, not modular half-window
comparison.  First concrete state: the current job is a Send of type 34
and the incoming request is still classified expected.  Second concrete
state: the stored sequence is 2^24 - 1 and an incoming wrapped-around
sequence 0, later in the modular half-window order, is not classified
expected. -/
theorem C4_counterexample :
  (isExpectedReq [{ kind := .send, msgType := 34 }]
      { initState [{ kind := JobKind.send, msgType := 34 }] with
        currProc := { seqNumber := 5 } }
      { msgType := 34, seqNumber := 10 } = some true ∧
    ([{ kind := JobKind.send, msgType := 34 }][0]?).map Job.kind = some JobKind.send) ∧
  (isExpectedReq [{ kind := .recv, msgType := 34 }]
      { initState [{ kind := JobKind.recv, msgType := 34 }] with
        currProc := { seqNumber := 2 ^ 24 - 1 } }
      { msgType := 34, seqNumber := 0 } = some false ∧
    seqLater24 (2 ^ 24 - 1) 0 = true ∧
    ([{ kind := JobKind.recv, msgType := 34 }][0]?).map Job.kind = some JobKind.recv ∧
    ([{ kind := JobKind.recv, msgType := 34 }][0]?).map Job.msgType = some 34) :=
  ⟨⟨by decide, by decide⟩, by decide, by decide, by decide, by decide⟩

/-- C4 (amended): an inbound request is classified as expected iff the
current job's message template (whether the job is a Send or a Recv is
not checked) has the matching type and the incoming sequence number is
strictly greater than cur_proc.seq_number under the plain integer
order - no modular half-window comparison is applied. -/
theorem C4_thm (jobSeq : List Job) (s : UeState) (m : GtpMsg) (ti t : Nat) (j : Job)
    (ht : s.currTask = some ti) (hj : jobSeq[ti]? = some j) (hg : j.getGtpMsg = some t) :
    isExpectedReq jobSeq s m =
      some (t == m.msgType && decide (s.currProc.seqNumber < m.seqNumber)) := by
  simp [isExpectedReq, ht, hj, hg]

/-- Witness for C4 at the wrapped-sequence state: the classification
computes to false although the incoming sequence is modularly later. -/
theorem C4_witness :
    isExpectedReq [{ kind := JobKind.recv, msgType := 34 }]
      { initState [{ kind := JobKind.recv, msgType := 34 }] with
        currProc := { seqNumber := 2 ^ 24 - 1 } }
      { msgType := 34, seqNumber := 0 } =
      some ((34 == 34) && decide (2 ^ 24 - 1 < 0)) :=
  C4_thm [{ kind := JobKind.recv, msgType := 34 }]
    { initState [{ kind := JobKind.recv, msgType := 34 }] with
      currProc := { seqNumber := 2 ^ 24 - 1 } }
    { msgType := 34, seqNumber := 0 } 0 34 { kind := JobKind.recv, msgType := 34 }
    (by decide) (by decide) (by decide)

/-- C5: an inbound request that is not expected but matches the previous
procedure's request type and sequence number (a case only examined
after the expected check fails) makes the session resend the stored
prev_proc.sent_msg verbatim over its stored connection id and peer and
count a receive retransmission on the originating job, leaving cur_idx
and every other part of the session state unchanged. -/
theorem C5_thm (cat : Nat → GtpMsgCat) (jobSeq : List Job) (cfg : Cfg) (genSeq : Nat)
    (s : UeState) (m : GtpMsg) (data : UdpData) (pi : Nat) (d : UdpData)
    (hexp : isExpectedReq jobSeq s m = some false)
    (hprev : isPrevProcReq s m = true)
    (hpt : s.prevProc.procTask = some pi)
    (hpm : s.prevProc.sentMsg = some d) :
    handleIncReqMsg cat jobSeq cfg genSeq s m data =
      some { st := { s with jobCtrs := bumpCtr s.jobCtrs pi
                              (fun c => { c with numRcvRetrans := c.numRcvRetrans + 1 }) }
             sends := [d], act := .running, ret := .rok } := by
  simp [handleIncReqMsg, hexp, hprev, hpt, hpm]

/-- The S4 session at the third job with the first procedure's CS_REQ /
CS_RSP stored in prev_proc. -/
def sC5 : UeState := { initState jobSeqS4 with
  currTaskIndx := 2
  currTask := some 2
  prevProc := { connId := 3, seqNumber := 10, reqType := some 32, rspType := some 33
                sentMsg := some { connId := 3, peerEp := 7
                                  buf := { msgType := 33, seqNumber := 10 } }
                procTask := some 0 }
  hasPdn := true
  pdnPeerEp := 7 }

/-- Witness for C5: the duplicate CS_REQ(seq 10) reaching `sC5` re-emits
the stored CS_RSP and bumps only the CS_REQ job's retransmission
counter. -/
theorem C5_witness :
    handleIncReqMsg catDemo jobSeqS4 cfg0 1 sC5 { msgType := 32, seqNumber := 10 } reqData10 =
      some { st := { sC5 with jobCtrs := bumpCtr sC5.jobCtrs 0
                                (fun c => { c with numRcvRetrans := c.numRcvRetrans + 1 }) }
             sends := [{ connId := 3, peerEp := 7, buf := { msgType := 33, seqNumber := 10 } }]
             act := .running, ret := .rok } :=
  C5_thm catDemo jobSeqS4 cfg0 1 sC5 { msgType := 32, seqNumber := 10 } reqData10 0
    { connId := 3, peerEp := 7, buf := { msgType := 33, seqNumber := 10 } }
    (by decide) (by decide) (by decide) (by decide)

/-- C6 counterexample: an unexpected response does not leave the waiting
session's state unchanged - handleRecv resets wake_ms to 0 after
processing any datagram, so the T3 retransmission wake time (1500 here)
is lost, although the session does remain waiting. -/
theorem C6_counterexample :
  ({ initState jobSeqS1 with
      bitWaiting := true
      wakeTime := 1500
      currProc := { seqNumber := 1, sentMsg := some dC2 } } : UeState).wakeTime = 1500 ∧
  (handleRecv catDemo jobSeqS1 cfg0 1
      { initState jobSeqS1 with
        bitWaiting := true
        wakeTime := 1500
        currProc := { seqNumber := 1, sentMsg := some dC2 } } rspData35).map
      (fun o => (o.st.wakeTime, o.st.bitWaiting)) = some (0, true) :=
  ⟨by decide, by decide⟩

/-- C6 (amended): an inbound message that is neither expected nor a
previous-procedure duplicate makes the session count it as unexpected
on the current job and drop it; every other part of the session state
is untouched - in particular a waiting session is still waiting - with
the one exception that the receive path resets wake_ms to 0, so a
pending T3 retransmission wake time is not preserved. -/
theorem C6_thm (cat : Nat → GtpMsgCat) (jobSeq : List Job) (cfg : Cfg) (genSeq : Nat)
    (s : UeState) (data : UdpData) (ti : Nat)
    (ht : s.currTask = some ti) :
    (cat data.buf.msgType = .rsp →
      isExpectedRsp jobSeq s data.buf = some false →
      isPrevProcRsp s data.buf = false →
      handleRecv cat jobSeq cfg genSeq s data =
        some { st := { s with
                 jobCtrs := bumpCtr s.jobCtrs ti
                   (fun c => { c with numUnexp := c.numUnexp + 1 })
                 wakeTime := 0 }
               sends := [], act := .running, ret := .rok }) ∧
    (cat data.buf.msgType = .req →
      isExpectedReq jobSeq s data.buf = some false →
      isPrevProcReq s data.buf = false →
      handleRecv cat jobSeq cfg genSeq s data =
        some { st := { s with
                 jobCtrs := bumpCtr s.jobCtrs ti
                   (fun c => { c with numUnexp := c.numUnexp + 1 })
                 wakeTime := 0 }
               sends := [], act := .running, ret := .rok }) := by
  constructor
  · intro hcat hexp hprev
    simp [handleRecv, handleIncRspMsg, hcat, hexp, hprev, ht]
  · intro hcat hexp hprev
    simp [handleRecv, handleIncReqMsg, hcat, hexp, hprev, ht]

/-- The waiting S1 session with an armed T3 wake used in the C6
witness. -/
def sC6 : UeState := { initState jobSeqS1 with
  bitWaiting := true
  wakeTime := 1500
  currProc := { seqNumber := 1, sentMsg := some dC2 } }

/-- Witness for C6: the unexpected MB_RSP bumps the current job's
unexpected counter, is dropped, and zeroes the wake time. -/
theorem C6_witness :
    handleRecv catDemo jobSeqS1 cfg0 1 sC6 rspData35 =
      some { st := { sC6 with
               jobCtrs := bumpCtr sC6.jobCtrs 0
                 (fun c => { c with numUnexp := c.numUnexp + 1 })
               wakeTime := 0 }
             sends := [], act := .running, ret := .rok } :=
  (C6_thm catDemo jobSeqS1 cfg0 1 sC6 rspData35 0 (by decide)).1
    (by decide) (by decide) (by decide)

end GtpSim
